import Mathlib

/-
Shallow embedding of `elasticdl/python/master/servicer.py` (MasterServicer).

Numeric tensor contents are modelled over ℚ.  Python dicts are modelled as
insertion-ordered association lists (update-in-place on existing keys,
append for new keys), matching Python dict semantics.  Exceptions are
modelled with an explicit error type; since a raise inside the critical
section may leave partially mutated servicer state behind, the gradient
entry point returns the post-call state together with either the response
or the error.  External collaborators (the optimizer, the embedding
service, the evaluation service and the checkpoint service) are passed in
as explicit capabilities, mirroring the constructor arguments of
`MasterServicer`.
-/

namespace ElasticDL

/-- A dense numeric tensor: a shape (list of dimensions) plus flat data. -/
structure DenseTensor where
  shape : List Nat
  data : List ℚ
deriving Repr, DecidableEq

/-- `tf.IndexedSlices`: a list of row indices together with a values tensor. -/
structure IndexedSlices where
  indices : List Nat
  values : DenseTensor
deriving Repr, DecidableEq

/-- The result of `tensor_to_ndarray`: either a plain ndarray or
`tf.IndexedSlices`; also the shape of a gradient handed to the optimizer. -/
inductive Grad where
  | dense (t : DenseTensor)
  | slices (s : IndexedSlices)
deriving Repr, DecidableEq

/-- The wire tensor (`elasticdl_pb2.Tensor`): dims, flat content, and an
optional indices list (empty = dense). -/
structure TensorPB where
  dims : List Nat
  content : List ℚ
  indices : List Nat
deriving Repr, DecidableEq

/-- `dim0 t` is `t.shape[0]` (0 when the shape is too short). -/
def DenseTensor.dim0 (t : DenseTensor) : Nat := t.shape.getD 0 0

/-- `dim1 t` is `t.shape[1]` (0 when the shape is too short). -/
def DenseTensor.dim1 (t : DenseTensor) : Nat := t.shape.getD 1 0

/-- `tensor_to_ndarray`: a tensor with a non-empty indices list decodes to
`tf.IndexedSlices`, otherwise to a plain ndarray. -/
def tensor_to_ndarray (t : TensorPB) : Grad :=
  if t.indices = [] then .dense ⟨t.dims, t.content⟩
  else .slices ⟨t.indices, ⟨t.dims, t.content⟩⟩

/-- Association-list lookup (Python `d[k]` / `k in d`). -/
def alGet {α : Type} : List (String × α) → String → Option α
  | [], _ => none
  | (k1, v) :: rest, k => if k1 = k then some v else alGet rest k

/-- Association-list store (Python `d[k] = v`): update in place when the key
exists, append otherwise — insertion order is preserved. -/
def alSet {α : Type} : List (String × α) → String → α → List (String × α)
  | [], k, v => [(k, v)]
  | (k1, v1) :: rest, k, v =>
    if k1 = k then (k1, v) :: rest else (k1, v1) :: alSet rest k v

/-- Update the value at a key in place (no-op when the key is absent). -/
def alModify {α : Type} : List (String × α) → String → (α → α) → List (String × α)
  | [], _, _ => []
  | (k1, v1) :: rest, k, f =>
    if k1 = k then (k1, f v1) :: rest else (k1, v1) :: alModify rest k f

/-- Elementwise sum of two dense tensors of identical shape
(`self._gradient_sum[k] + v`). -/
def addDense (a b : DenseTensor) : DenseTensor :=
  ⟨a.shape, List.zipWith (fun x y => x + y) a.data b.data⟩

/-- In-place normalization `self._gradient_sum[k] / self._grad_to_wait`. -/
def divDense (t : DenseTensor) (n : Nat) : DenseTensor :=
  ⟨t.shape, t.data.map (fun x => x / (n : ℚ))⟩

/-- Modelled from the spec: `merge_indexed_slices`
(`elasticdl.python.common.tensor_helper`) is not part of the sources under
`src/`; §4.2 `MergeIndexed` concatenates the index and value sequences of the
two operands and performs no deduplication. -/
def merge_indexed_slices (a b : IndexedSlices) : IndexedSlices :=
  ⟨a.indices ++ b.indices,
   ⟨[a.indices.length + b.indices.length, a.values.dim1],
    a.values.data ++ b.values.data⟩⟩

/-- Modelled from the spec: `Embedding.get_key([layer_name, i])`
(`elasticdl.python.elasticdl.layers.embedding`) is not part of the sources
under `src/`; per §4.4 step (5) rows are keyed by an encoding of the layer
name together with the row index. -/
def embeddingKey (name : String) (i : Nat) : String :=
  name ++ "-" ++ toString i

/-- Largest element of an index list (`tf.math.reduce_max`), 0 when empty. -/
def maxIdx (l : List Nat) : Nat := l.foldl Nat.max 0

/-- Order-preserving list of distinct elements (first component of
`tf.unique`). -/
def uniqueList (l : List Nat) : List Nat :=
  l.foldl (fun acc x => if x ∈ acc then acc else acc ++ [x]) []

/-- `tf.unique`: the distinct elements in order of first appearance, together
with, for each input element, its position in the distinct list. -/
def uniqueIdx (l : List Nat) : List Nat × List Nat :=
  let u := uniqueList l
  (u, l.map (fun x => u.indexOf x))

/-- Split flat data into rows of width `w` (iterating a 2-d ndarray). -/
def chunksOf (w : Nat) : List ℚ → List (List ℚ)
  | [] => []
  | x :: xs =>
    if w = 0 then []
    else (x :: xs).take w :: chunksOf w ((x :: xs).drop w)
termination_by l => l.length
decreasing_by
  simp only [List.length_drop, List.length_cons]
  omega

/-- The rows of a 2-d tensor whose second dimension is `t.shape[1]`. -/
def rowsOf (t : DenseTensor) : List (List ℚ) := chunksOf t.dim1 t.data

/-- Errors raised by the servicer (Python exceptions), plus the structured
data each message carries. -/
inductive MasterError where
  /-- `_validate_model_version`: requested model version not available yet. -/
  | versionNotAvailable (requested current : Nat)
  /-- `ReportGradient`: gradient key is not part of the model (dense case). -/
  | unknownVariable (k : String)
  /-- `ReportGradient`: dense gradient has an incompatible dimension. -/
  | denseShapeMismatch (k : String)
  /-- `ReportGradient`: indexed slice has an incompatible second dimension. -/
  | indexedDimMismatch (k : String)
  /-- `ReportGradient`: sparse index out of the variable's row range. -/
  | indexOutOfRange (k : String)
  /-- `_update_model`: the embedding service reported unknown keys; carries
  the number of missing keys and the first missing key (the message names
  `len(unknown_keys)` and `str(unknown_keys[0])`). -/
  | missingEmbeddingKeys (count : Nat) (firstKey : String)
  /-- `_init_model_from_tensor_dict`: `assert tensor_dict` on an empty map. -/
  | emptyInit
  /-- `set_model_var` applied to a non-dense value. -/
  | invalidVariableValue (k : String)
  /-- An exception escaping `add_evaluation_task_if_needed` (the evaluation
  collaborator); `_update_evaluation` does not catch it. -/
  | evalHookException
deriving Repr, DecidableEq

/-- The mutable servicer state (the fields of `MasterServicer` that the
claims concern). -/
structure MasterState where
  model : List (String × DenseTensor)
  version : Nat
  gradient_sum : List (String × DenseTensor)
  gradient_sum_indexed : List (String × IndexedSlices)
  edl_embedding_gradients : List (String × IndexedSlices)
  grad_n : Nat
  grad_to_wait : Nat
deriving Repr, DecidableEq

/-- Observable side effects fired while handling a call (in order). -/
inductive Event where
  /-- `EmbeddingService.update_embedding` pushed these (key, row) upserts. -/
  | upserts (kvs : List (String × List ℚ))
  /-- `add_evaluation_task_if_needed` was invoked. -/
  | evalHook
  /-- `need_to_checkpoint` was consulted. -/
  | ckptCheck
  /-- `_save_checkpoint` ran at this version; `ok` is false when the save
  raised (the exception is caught inside `_save_checkpoint`). -/
  | ckptSave (v : Nat) (ok : Bool)
deriving Repr, DecidableEq

/-- The external collaborators handed to `MasterServicer.__init__`, as
capabilities: the optimizer (`apply_gradients` modelled as one step per
(gradient, variable) pair, applied sequentially in pair order), the
embedding store (a key-value map of rows), the evaluation service and the
checkpoint service. -/
structure Deps where
  opt : Grad → DenseTensor → DenseTensor
  gw : String → Option (List ℚ)
  evalPresent : Bool
  evalRaises : Bool
  ckptPresent : Bool
  needCkpt : Nat → Bool
  saveRaises : Bool

/-- The response message of `ReportGradient`. -/
structure ReportGradientResponse where
  accepted : Bool
  model_version : Nat
deriving Repr, DecidableEq

/-- A `GetModel` / `ReportGradient` result model (`elasticdl_pb2.Model`):
a version plus a name → tensor parameter map.  A fresh message defaults to
version 0 with no parameters. -/
structure PBModel where
  version : Nat
  param : List (String × DenseTensor)
deriving Repr, DecidableEq

/-- The request message of `ReportGradient`. -/
structure GradientRequest where
  model_version : Nat
  gradient : List (String × TensorPB)
deriving Repr, DecidableEq

/-- `GetModelRequest.method`. -/
inductive GetModelMethod where
  | EXACT
  | MINIMUM
deriving Repr, DecidableEq

/-- The request message of `GetModel`. -/
structure GetModelRequest where
  version : Nat
  method : GetModelMethod
deriving Repr, DecidableEq

instance instDecEqExceptErr {ε α : Type} [DecidableEq ε] [DecidableEq α] :
    DecidableEq (Except ε α) := fun x y =>
  match x, y with
  | .ok a, .ok b =>
    if h : a = b then .isTrue (by rw [h])
    else .isFalse (fun hc => h (Except.ok.inj hc))
  | .error a, .error b =>
    if h : a = b then .isTrue (by rw [h])
    else .isFalse (fun hc => h (Except.error.inj hc))
  | .ok _, .error _ => .isFalse (fun h => Except.noConfusion h)
  | .error _, .ok _ => .isFalse (fun h => Except.noConfusion h)

/-- The overall result of a `ReportGradient` call: the servicer state after
the call (mutations survive a raised exception), the response or the
escaping exception, and the side effects fired. -/
structure RGOut where
  state : MasterState
  outcome : Except MasterError ReportGradientResponse
  events : List Event
deriving Repr, DecidableEq

/-- The local dictionaries built by the sanity-check loop of
`ReportGradient` before anything is accumulated: `tmp` (dense),
`indexed_grads`, and `edl_embedding_gradients`. -/
structure Classified where
  tmp : List (String × DenseTensor)
  indexed : List (String × IndexedSlices)
  edl : List (String × IndexedSlices)
deriving Repr, DecidableEq

/-- The sanity-check loop of `ReportGradient` (lines 326–370): walk the
report in order; a key absent from the model goes to the ElasticDL
embedding bucket when it carries indices and raises `unknownVariable`
otherwise; a key present in the model is validated (slice width and index
range for `IndexedSlices`, full shape for dense) and classified into the
indexed or dense bucket.  The first failing entry aborts the whole loop
with nothing accumulated. -/
def classifyGradients (model : List (String × DenseTensor)) :
    List (String × TensorPB) → Classified → Except MasterError Classified
  | [], acc => .ok acc
  | (k, t) :: rest, acc =>
    match alGet model k with
    | none =>
      if t.indices = [] then .error (.unknownVariable k)
      else
        classifyGradients model rest
          { acc with edl := alSet acc.edl k ⟨t.indices, ⟨t.dims, t.content⟩⟩ }
    | some mv =>
      match tensor_to_ndarray t with
      | .slices sl =>
        if sl.values.dim1 ≠ mv.dim1 then .error (.indexedDimMismatch k)
        else if mv.dim0 ≤ maxIdx sl.indices then .error (.indexOutOfRange k)
        else classifyGradients model rest
          { acc with indexed := alSet acc.indexed k sl }
      | .dense a =>
        if a.shape ≠ mv.shape then .error (.denseShapeMismatch k)
        else classifyGradients model rest { acc with tmp := alSet acc.tmp k a }

/-- The three accumulation loops of `ReportGradient` (lines 372–396): merge
the classified local dictionaries into the three accumulator maps
(ElasticDL embedding, Keras-embedding indexed, dense). -/
def accumulate (s : MasterState) (c : Classified) : MasterState :=
  let edl2 := c.edl.foldl (fun m kv =>
    match alGet m kv.1 with
    | some old => alSet m kv.1 (merge_indexed_slices old kv.2)
    | none => alSet m kv.1 kv.2) s.edl_embedding_gradients
  let ind2 := c.indexed.foldl (fun m kv =>
    match alGet m kv.1 with
    | none => alSet m kv.1 kv.2
    | some old => alSet m kv.1 (merge_indexed_slices old kv.2)) s.gradient_sum_indexed
  let den2 := c.tmp.foldl (fun m kv =>
    match alGet m kv.1 with
    | some old => alSet m kv.1 (addDense old kv.2)
    | none => alSet m kv.1 kv.2) s.gradient_sum
  { s with
    edl_embedding_gradients := edl2
    gradient_sum_indexed := ind2
    gradient_sum := den2 }

/-- The target of a (gradient, variable) pair handed to the optimizer:
either a model variable (shared, mutated in place) or a freshly constructed
temporary variable (the ElasticDL embedding case). -/
inductive VarTarget where
  | modelKey (k : String)
  | temp (v : DenseTensor)
deriving Repr, DecidableEq

/-- The ElasticDL-embedding part of `_update_model` (lines 184–212): for
each accumulated embedding layer, take the distinct ids (`tf.unique`),
re-index the slice values against the distinct list, look every key up in
the embedding store, raise `missingEmbeddingKeys` when any key is absent
(naming the count and the first missing key), skip the layer when the
lookup returns nothing, and otherwise build a fresh temporary variable from
the looked-up rows.  Returns the `unique_ids_list` (one entry per layer,
appended before the lookup, so present even for skipped layers) and the
(gradient, temporary-variable) pairs of the kept layers.

The lookup itself is modelled from the spec:
`EmbeddingService.lookup_embedding` is not part of the sources under
`src/`; per §4.4 step (3) it fetches the currently stored row of every
requested key and reports the absent keys. -/
def processEdl (gw : String → Option (List ℚ)) :
    List (String × IndexedSlices) →
    Except MasterError (List (List Nat) × List (Grad × DenseTensor))
  | [] => .ok ([], [])
  | (name, grads) :: rest =>
    let u := uniqueIdx grads.indices
    let keys := u.1.map (fun i => embeddingKey name i)
    let unknown := keys.filter (fun k => (gw k).isNone)
    if unknown ≠ [] then
      .error (.missingEmbeddingKeys unknown.length (unknown.headD ""))
    else
      let embeddings := keys.filterMap gw
      match processEdl gw rest with
      | .error e => .error e
      | .ok pr =>
        if embeddings = [] then .ok (u.1 :: pr.1, pr.2)
        else
          let flat := embeddings.flatten
          let var := DenseTensor.mk [keys.length, flat.length / keys.length] flat
          .ok (u.1 :: pr.1, (Grad.slices ⟨u.2, grads.values⟩, var) :: pr.2)

/-- The ordered `grad_var` list built by `_update_model` (lines 171–212):
first the dense sums, each divided in place by `grads_to_wait`, then the
Keras-embedding indexed sums exactly as accumulated, then the
ElasticDL-embedding pairs produced by `processEdl`.  Also returns the
`unique_ids_list`. -/
def gradVarOf (gw : String → Option (List ℚ)) (s : MasterState) :
    Except MasterError (List (Grad × VarTarget) × List (List Nat)) :=
  match processEdl gw s.edl_embedding_gradients with
  | .error e => .error e
  | .ok pr =>
    .ok ((s.gradient_sum.map
            (fun kv => (Grad.dense (divDense kv.2 s.grad_to_wait),
                        VarTarget.modelKey kv.1)))
         ++ (s.gradient_sum_indexed.map
              (fun kv => (Grad.slices kv.2, VarTarget.modelKey kv.1)))
         ++ pr.2.map (fun q => (q.1, VarTarget.temp q.2)),
        pr.1)

/-- `self._opt.apply_gradients(grad_var)`: apply the optimizer step to each
(gradient, variable) pair in order.  Model variables are updated in place
in the model map; temporary variables collect their updated values in
order. -/
def applyGradVar (opt : Grad → DenseTensor → DenseTensor) :
    List (Grad × VarTarget) → List (String × DenseTensor) → List DenseTensor →
    List (String × DenseTensor) × List DenseTensor
  | [], m, temps => (m, temps)
  | (g, .modelKey k) :: rest, m, temps =>
    applyGradVar opt rest (alModify m k (opt g)) temps
  | (g, .temp v) :: rest, m, temps =>
    applyGradVar opt rest m (temps ++ [opt g v])

/-- `_update_edl_embedding_table` (lines 145–167): zip the embedding layer
names, the `unique_ids_list` and the updated temporary variables (`zip`
truncates to the shortest list), and flatten into (encoded key, updated
row) upserts. -/
def upsertsOf : List String → List (List Nat) → List DenseTensor →
    List (String × List ℚ)
  | n :: ns, u :: us, v :: vs =>
    (u.map (fun i => embeddingKey n i)).zip (rowsOf v) ++ upsertsOf ns us vs
  | _, _, _ => []

/-- `MasterServicer._update_model` (lines 169–229).  Divides every dense sum
in place by `grads_to_wait`, builds the `grad_var` list (raising
`missingEmbeddingKeys` from the embedding lookup — note the divided dense
sums are already written back at that point), applies the optimizer to
every pair in order, pushes the updated embedding rows, increments the
version, and clears the three accumulator maps and the counter.  Returns
the new state together with the upsert side effect or the error. -/
def update_model (opt : Grad → DenseTensor → DenseTensor)
    (gw : String → Option (List ℚ)) (s : MasterState) :
    MasterState × Except MasterError (List Event) :=
  let gsum2 := s.gradient_sum.map (fun kv => (kv.1, divDense kv.2 s.grad_to_wait))
  match gradVarOf gw s with
  | .error e => ({ s with gradient_sum := gsum2 }, .error e)
  | .ok gv =>
    let mt := applyGradVar opt gv.1 s.model []
    let ups := upsertsOf (s.edl_embedding_gradients.map Prod.fst) gv.2 mt.2
    ({ s with
        model := mt.1
        version := s.version + 1
        gradient_sum := []
        gradient_sum_indexed := []
        edl_embedding_gradients := []
        grad_n := 0 },
     .ok (if ups.isEmpty then [] else [Event.upserts ups]))

/-- `MasterServicer._update_evaluation` (lines 269–273): when an evaluation
service is present, invoke `add_evaluation_task_if_needed`; there is no
`try` around the call, so an exception it raises escapes. -/
def update_evaluation (d : Deps) : List Event × Option MasterError :=
  if d.evalPresent then
    ([.evalHook], if d.evalRaises then some .evalHookException else none)
  else ([], none)

/-- `MasterServicer._update_checkpoint` (lines 275–280): when a checkpoint
service is present and `need_to_checkpoint` holds at the current version,
run `_save_checkpoint`; `_save_checkpoint` wraps its whole body in
`try/except`, so a failing save is logged and never raises. -/
def update_checkpoint (d : Deps) (v : Nat) : List Event :=
  if d.ckptPresent then
    .ckptCheck :: (if d.needCkpt v then [.ckptSave v (!d.saveRaises)] else [])
  else []

/-- `MasterServicer.ReportGradient` (lines 305–406).  Version validation
first (raising for a future version, structured `accepted=false` rejection
for a stale one), then — under the lock — the sanity-check/classification
loop, the three accumulation loops, the counter increment, and, when the
quorum is reached, `_update_model` followed by the evaluation and
checkpoint hooks. -/
def ReportGradient (d : Deps) (req : GradientRequest) (s : MasterState) : RGOut :=
  if s.version < req.model_version then
    ⟨s, .error (.versionNotAvailable req.model_version s.version), []⟩
  else if req.model_version = s.version then
    match classifyGradients s.model req.gradient ⟨[], [], []⟩ with
    | .error e => ⟨s, .error e, []⟩
    | .ok c =>
      let s1 := accumulate s c
      let s2 := { s1 with grad_n := s1.grad_n + 1 }
      if s2.grad_to_wait ≤ s2.grad_n then
        match update_model d.opt d.gw s2 with
        | (s3, .error e) => ⟨s3, .error e, []⟩
        | (s3, .ok ev0) =>
          let ev1 := update_evaluation d
          match ev1.2 with
          | some e => ⟨s3, .error e, ev0 ++ ev1.1⟩
          | none =>
            ⟨s3, .ok ⟨true, s3.version⟩, ev0 ++ ev1.1 ++ update_checkpoint d s3.version⟩
      else ⟨s2, .ok ⟨true, s2.version⟩, []⟩
  else
    ⟨s, .ok ⟨false, s.version⟩, []⟩

/-- `MasterServicer._get_model_no_lock` (lines 282–287): the live snapshot,
version plus every model parameter. -/
def get_model_no_lock (s : MasterState) : PBModel := ⟨s.version, s.model⟩

/-- `MasterServicer.GetModel` (lines 117–139): validate the requested
version (raising when it is ahead of the current one); serve the live
snapshot for `MINIMUM` mode or an exact match; otherwise consult the
checkpoint service, falling back to a default (version 0, empty) model when
the lookup raises. -/
def GetModel (ckpt : Nat → Option PBModel) (req : GetModelRequest)
    (s : MasterState) : Except MasterError PBModel :=
  if s.version < req.version then
    .error (.versionNotAvailable req.version s.version)
  else if req.method = .MINIMUM ∨ req.version = s.version then
    .ok (get_model_no_lock s)
  else
    .ok (match ckpt req.version with
         | some m => m
         | none => ⟨0, []⟩)

/-- `MasterServicer._init_model_from_tensor_dict` (lines 75–78) as used by
`ReportVariable`: assert the map is non-empty, then `set_model_var` each
entry in order into the model.  A non-dense value fails at that entry,
leaving the entries already written in place (the write is direct to
`self._model`). -/
def initModelFromTensorDict :
    List (String × TensorPB) → List (String × DenseTensor) →
    List (String × DenseTensor) × Option MasterError
  | [], m => (m, none)
  | (k, t) :: rest, m =>
    match tensor_to_ndarray t with
    | .dense a => initModelFromTensorDict rest (alSet m k a)
    | .slices _ => (m, some (.invalidVariableValue k))

/-- `MasterServicer.ReportVariable` (lines 299–303): under the lock,
initialize the model from the request exactly when the model is still
empty; otherwise do nothing. -/
def ReportVariable (req : List (String × TensorPB)) (s : MasterState) :
    MasterState × Except MasterError Unit :=
  if s.model.isEmpty then
    if req.isEmpty then (s, .error .emptyInit)
    else
      let r := initModelFromTensorDict req []
      ({ s with model := r.1 },
       match r.2 with
       | some e => .error e
       | none => .ok ())
  else (s, .ok ())

/-- Subtract `row` from the width-`w` row at index `i` of a flat data list
(walking it from position `pos`): the single scatter step of a row-wise
optimizer update. -/
def updateRowSub (w i : Nat) (row : List ℚ) : Nat → List ℚ → List ℚ
  | _, [] => []
  | pos, x :: xs =>
    (if i * w ≤ pos ∧ pos < i * w + w then x - row.getD (pos - i * w) 0 else x)
      :: updateRowSub w i row (pos + 1) xs

/-- A trivial subtract-gradient optimizer, one step per (gradient, variable)
pair: a dense gradient is subtracted elementwise; an `IndexedSlices`
gradient is applied scatter-style, each (index, row) pair subtracting from
the addressed variable row in sequence — so duplicate indices accumulate by
summation, the `apply_gradients` semantics of TensorFlow optimizers on
sparse gradients. -/
def subtractOptimizer : Grad → DenseTensor → DenseTensor
  | .dense g, v => ⟨v.shape, List.zipWith (fun a b => a - b) v.data g.data⟩
  | .slices sl, v =>
    ⟨v.shape,
     (sl.indices.zip (rowsOf sl.values)).foldl
       (fun dat p => updateRowSub v.dim1 p.1 p.2 0 dat) v.data⟩

/-- An empty external embedding store: every lookup misses. -/
def gwEmpty : String → Option (List ℚ) := fun _ => none

/-- Collaborators for the dense end-to-end scenario: subtract-gradient
optimizer, no embedding store entries, no evaluation or checkpoint
service. -/
def depsPlain : Deps :=
  ⟨subtractOptimizer, gwEmpty, false, false, false, fun _ => false, false⟩

/-- Scenario (§8): quorum 2, model `{"w": [1.0, 1.0]}`, version 0. -/
def sW : MasterState := ⟨[("w", ⟨[2], [1, 1]⟩)], 0, [], [], [], 0, 2⟩

/-- Worker A's report: dense `{"w": [0.1, 0.1]}` at version 0. -/
def reqWA : GradientRequest := ⟨0, [("w", ⟨[2], [1/10, 1/10], []⟩)]⟩

/-- Worker B's report: dense `{"w": [0.3, 0.3]}` at version 0. -/
def reqWB : GradientRequest := ⟨0, [("w", ⟨[2], [3/10, 3/10], []⟩)]⟩

/-- The state after worker A's report: A's gradient accumulated, one
contribution counted, nothing else changed. -/
def sWa : MasterState :=
  ⟨[("w", ⟨[2], [1, 1]⟩)], 0, [("w", ⟨[2], [1/10, 1/10]⟩)], [], [], 1, 2⟩

/-- Worker B's report classified: a single dense entry. -/
def cWB : Classified := ⟨[("w", ⟨[2], [3/10, 3/10]⟩)], [], []⟩

/-- Sparse-duplicate scenario (§8): quorum 1, model variable `emb` of shape
6 × 1 filled with 10s. -/
def sEmb : MasterState :=
  ⟨[("emb", ⟨[6, 1], [10, 10, 10, 10, 10, 10]⟩)], 0, [], [], [], 0, 1⟩

/-- A report carrying sparse indices `[2, 2, 5]` with values `[1, 1, 2]`
for the in-model key `emb`, at version 0. -/
def reqEmb : GradientRequest := ⟨0, [("emb", ⟨[3, 1], [1, 1, 2], [2, 2, 5]⟩)]⟩

/-- `reqEmb` classified: one indexed-bucket entry, duplicates intact. -/
def cEmb : Classified := ⟨[], [("emb", ⟨[2, 2, 5], ⟨[3, 1], [1, 1, 2]⟩⟩)], []⟩

/-- The report's slices exactly as accumulated: duplicate indices intact. -/
def rawEmb : IndexedSlices := ⟨[2, 2, 5], ⟨[3, 1], [1, 1, 2]⟩⟩

/-- The unique-index, summed-value reduction of `rawEmb`. -/
def reducedEmb : IndexedSlices := ⟨[2, 5], ⟨[2, 1], [2, 2]⟩⟩

/-- The accumulator state reached by `reqEmb` immediately before the update
attempt: the indexed sum holds the raw slices and the counter is 1. -/
def sEmb2 : MasterState :=
  ⟨[("emb", ⟨[6, 1], [10, 10, 10, 10, 10, 10]⟩)], 0, [],
   [("emb", ⟨[2, 2, 5], ⟨[3, 1], [1, 1, 2]⟩⟩)], [], 1, 1⟩

/-- Missing-embedding-key scenario: quorum 2, model `{"w": [10.0]}`. -/
def sEdl : MasterState := ⟨[("w", ⟨[1], [10]⟩)], 0, [], [], [], 0, 2⟩

/-- First report of the missing-key scenario: dense `{"w": [2.0]}`. -/
def reqEdlA : GradientRequest := ⟨0, [("w", ⟨[1], [2], []⟩)]⟩

/-- Quorum-tipping report of the missing-key scenario: dense `{"w": [2.0]}`
plus a sparse gradient for the external embedding layer `e`, row 0. -/
def reqEdlB : GradientRequest :=
  ⟨0, [("w", ⟨[1], [2], []⟩), ("e", ⟨[1, 1], [5], [0]⟩)]⟩

/-- The state after the first report of the missing-key scenario. -/
def sEdlA : MasterState :=
  ⟨[("w", ⟨[1], [10]⟩)], 0, [("w", ⟨[1], [2]⟩)], [], [], 1, 2⟩

/-- The tipping report of the missing-key scenario classified. -/
def cEdlB : Classified :=
  ⟨[("w", ⟨[1], [2]⟩)], [], [("e", ⟨[0], ⟨[1, 1], [5]⟩⟩)]⟩

/-- Collaborators with an evaluation service whose
`add_evaluation_task_if_needed` raises, and a checkpoint service that wants
a checkpoint at every version but whose save raises. -/
def depsEvalRaises : Deps :=
  ⟨subtractOptimizer, gwEmpty, true, true, true, fun _ => true, true⟩

/-- Collaborators with a well-behaved evaluation service and a checkpoint
service that wants a checkpoint at every version but whose save raises. -/
def depsEvalOk : Deps :=
  ⟨subtractOptimizer, gwEmpty, true, false, true, fun _ => true, true⟩

/-- Decidable check that an in-model report entry passes the sanity checks
of `ReportGradient` (an entry whose key is absent from the model passes
vacuously): slice width and index range for `IndexedSlices`, full shape
equality for dense values. -/
def inModelValidB (model : List (String × DenseTensor)) (k : String)
    (t : TensorPB) : Bool :=
  match alGet model k with
  | none => true
  | some mv =>
    match tensor_to_ndarray t with
    | .slices sl =>
      decide (sl.values.dim1 = mv.dim1) && decide (maxIdx sl.indices < mv.dim0)
    | .dense a => decide (a.shape = mv.shape)

/-- `self._grad_n += 1`: the contribution-counter increment. -/
def bumpCount (s : MasterState) : MasterState :=
  ⟨s.model, s.version, s.gradient_sum, s.gradient_sum_indexed,
   s.edl_embedding_gradients, s.grad_n + 1, s.grad_to_wait⟩

/-- A checkpoint store with no retrievable checkpoints: every
`get_checkpoint_model` call raises. -/
def ckptNone : Nat → Option PBModel := fun _ => none

/-- A concrete state at version 3 with a single variable. -/
def sV3 : MasterState := ⟨[("w", ⟨[1], [1]⟩)], 3, [], [], [], 0, 2⟩

/-- A concrete empty-model state (uninitialized servicer). -/
def sEmptyModel : MasterState := ⟨[], 0, [], [], [], 0, 2⟩

/- ------------------------------------------------------------------ -/
/- Theorems.                                                          -/
/- ------------------------------------------------------------------ -/

@[simp]
theorem accumulate_model (s : MasterState) (c : Classified) :
    (accumulate s c).model = s.model := rfl

@[simp]
theorem accumulate_version (s : MasterState) (c : Classified) :
    (accumulate s c).version = s.version := rfl

@[simp]
theorem accumulate_grad_n (s : MasterState) (c : Classified) :
    (accumulate s c).grad_n = s.grad_n := rfl

@[simp]
theorem accumulate_grad_to_wait (s : MasterState) (c : Classified) :
    (accumulate s c).grad_to_wait = s.grad_to_wait := rfl

theorem accumulate_edl_nil (s : MasterState) (c : Classified)
    (hce : c.edl = []) (hse : s.edl_embedding_gradients = []) :
    (accumulate s c).edl_embedding_gradients = [] := by
  show c.edl.foldl _ s.edl_embedding_gradients = []
  rw [hce, List.foldl_nil, hse]

theorem accumulate_indexed_nil (s : MasterState) (c : Classified)
    (hci : c.indexed = []) (hsi : s.gradient_sum_indexed = []) :
    (accumulate s c).gradient_sum_indexed = [] := by
  show c.indexed.foldl _ s.gradient_sum_indexed = []
  rw [hci, List.foldl_nil, hsi]

/-- Helper: the head that `headD` picks out of a non-empty filter result
satisfies the filter predicate. -/
theorem filter_headD_mem {p : String → Bool} (l : List String)
    (h : l.filter p ≠ []) : p ((l.filter p).headD "") = true := by
  cases hf : l.filter p with
  | nil => exact absurd hf h
  | cons a t =>
    have ha : a ∈ l.filter p := by
      rw [hf]
      exact List.mem_cons_self _ _
    have := List.of_mem_filter ha
    simpa [hf] using this

/-- Helper: a `missingEmbeddingKeys` error out of the embedding-lookup
phase always names a key genuinely absent from the store and a positive
count of missing keys. -/
theorem processEdl_missing (gw : String → Option (List ℚ)) :
    ∀ (l : List (String × IndexedSlices)) (n : Nat) (k : String),
      processEdl gw l = .error (.missingEmbeddingKeys n k) →
      gw k = none ∧ 0 < n := by
  intro l
  induction l with
  | nil =>
    intro n k h
    simp [processEdl] at h
  | cons hd tl ih =>
    intro n k h
    rw [processEdl] at h
    split at h
    · rename_i hu
      simp only [Except.error.injEq, MasterError.missingEmbeddingKeys.injEq] at h
      obtain ⟨hn, hk⟩ := h
      constructor
      · have hp := filter_headD_mem _ hu
        rw [hk] at hp
        simpa [Option.isNone_iff_eq_none] using hp
      · rw [← hn]
        cases hf : List.filter (fun k2 => (gw k2).isNone)
            (List.map (fun i => embeddingKey hd.1 i) (uniqueIdx hd.2.indices).1) with
        | nil => exact absurd hf hu
        | cons a t => simp [hf]
    · split at h
      · rename_i e2 htl
        simp only [Except.error.injEq] at h
        exact ih _ _ (by rw [htl, h])
      · exfalso
        revert h
        dsimp only
        split <;> exact fun h => Except.noConfusion h

/-- Helper: `_update_model` on a state with no indexed and no
external-embedding accumulation — the pure dense update: every dense sum
is divided by the quorum threshold and handed to the optimizer against its
model variable, the version is incremented, and all accumulation state is
cleared.  No upserts are pushed. -/
theorem update_model_dense (opt : Grad → DenseTensor → DenseTensor)
    (gw : String → Option (List ℚ)) (s : MasterState)
    (hsi : s.gradient_sum_indexed = []) (hse : s.edl_embedding_gradients = []) :
    update_model opt gw s =
      ({ s with
          model := (applyGradVar opt
            (s.gradient_sum.map
              (fun kv => (Grad.dense (divDense kv.2 s.grad_to_wait),
                          VarTarget.modelKey kv.1)))
            s.model []).1
          version := s.version + 1
          gradient_sum := []
          gradient_sum_indexed := []
          edl_embedding_gradients := []
          grad_n := 0 }, .ok []) := by
  unfold update_model gradVarOf
  rw [hse, hsi]
  simp [processEdl, upsertsOf]

/-- Helper: `_update_model` when the embedding lookup fails — the error
propagates, the counter and the indexed/external maps are untouched, but
the dense sums have already been divided in place by the quorum
threshold. -/
theorem update_model_missing (opt : Grad → DenseTensor → DenseTensor)
    (gw : String → Option (List ℚ)) (s : MasterState) (n : Nat) (k : String)
    (he : processEdl gw s.edl_embedding_gradients
          = .error (.missingEmbeddingKeys n k)) :
    update_model opt gw s =
      ({ s with gradient_sum :=
          s.gradient_sum.map (fun kv => (kv.1, divDense kv.2 s.grad_to_wait)) },
       .error (.missingEmbeddingKeys n k)) := by
  unfold update_model gradVarOf
  rw [he]

/-- Helper: a version-matching report that tips the quorum reduces to the
update-plus-hooks sequence on the accumulated, counter-incremented
state. -/
theorem reportGradient_tipping (d : Deps) (req : GradientRequest)
    (s : MasterState) (c : Classified)
    (hv : req.model_version = s.version)
    (hc : classifyGradients s.model req.gradient ⟨[], [], []⟩ = .ok c)
    (hq : s.grad_to_wait ≤ s.grad_n + 1) :
    ReportGradient d req s =
      (match update_model d.opt d.gw (bumpCount (accumulate s c)) with
       | (s3, .error e) => ⟨s3, .error e, []⟩
       | (s3, .ok ev0) =>
         match (update_evaluation d).2 with
         | some e => RGOut.mk s3 (.error e) (ev0 ++ (update_evaluation d).1)
         | none => RGOut.mk s3 (.ok ⟨true, s3.version⟩)
             (ev0 ++ (update_evaluation d).1 ++ update_checkpoint d s3.version)) := by
  unfold ReportGradient
  rw [if_neg (by omega), if_pos hv, hc]
  dsimp only
  rw [if_pos (by simpa using hq)]
  rfl

/-- C2: a quorum-tipping `ReportGradient` of a purely dense round (all
prior accumulation dense, the tipping report classifying dense-only)
applies the optimizer to each accumulated dense gradient sum divided by
the quorum threshold, increments the model version by exactly 1, clears
the three accumulator maps and the contribution counter, and answers
`accepted = true` with the new version. -/
theorem quorum_dense_update (d : Deps) (req : GradientRequest)
    (s : MasterState) (c : Classified)
    (hv : req.model_version = s.version)
    (hc : classifyGradients s.model req.gradient ⟨[], [], []⟩ = .ok c)
    (hci : c.indexed = []) (hce : c.edl = [])
    (hsi : s.gradient_sum_indexed = []) (hse : s.edl_embedding_gradients = [])
    (hq : s.grad_to_wait ≤ s.grad_n + 1)
    (hev : d.evalRaises = false) :
    (ReportGradient d req s).outcome = .ok ⟨true, s.version + 1⟩ ∧
    (ReportGradient d req s).state =
      { model := (applyGradVar d.opt
          ((accumulate s c).gradient_sum.map
            (fun kv => (Grad.dense (divDense kv.2 s.grad_to_wait),
                        VarTarget.modelKey kv.1)))
          s.model []).1
        version := s.version + 1
        gradient_sum := []
        gradient_sum_indexed := []
        edl_embedding_gradients := []
        grad_n := 0
        grad_to_wait := s.grad_to_wait } := by
  rw [reportGradient_tipping d req s c hv hc hq]
  have h1 : (bumpCount (accumulate s c)).gradient_sum_indexed = [] :=
    accumulate_indexed_nil s c hci hsi
  have h2 : (bumpCount (accumulate s c)).edl_embedding_gradients = [] :=
    accumulate_edl_nil s c hce hse
  rw [update_model_dense d.opt d.gw (bumpCount (accumulate s c)) h1 h2]
  cases hep : d.evalPresent <;>
    simp [update_evaluation, hep, hev, bumpCount, accumulate_model,
      accumulate_version, accumulate_grad_to_wait]

theorem quorum_dense_update_witness :
    ReportGradient depsPlain reqWA sW = ⟨sWa, .ok ⟨true, 0⟩, []⟩ ∧
    (ReportGradient depsPlain reqWB sWa).outcome = .ok ⟨true, 1⟩ ∧
    (ReportGradient depsPlain reqWB sWa).state.model
      = [("w", ⟨[2], [4/5, 4/5]⟩)] ∧
    (ReportGradient depsPlain reqWB sWa).state.version = 1 ∧
    (ReportGradient depsPlain reqWB sWa).state.grad_n = 0 := by
  have h := quorum_dense_update depsPlain reqWB sWa cWB rfl
    (by norm_num [classifyGradients, alGet, alSet, tensor_to_ndarray, sWa,
      reqWB, cWB, DenseTensor.dim0, DenseTensor.dim1, maxIdx])
    rfl rfl rfl rfl (by decide) rfl
  refine ⟨?_, h.1, ?_, ?_, ?_⟩
  · norm_num [ReportGradient, classifyGradients, accumulate, alGet, alSet,
      tensor_to_ndarray, sW, sWa, reqWA, depsPlain, DenseTensor.dim0,
      DenseTensor.dim1, maxIdx]
  · rw [h.2]
    norm_num [applyGradVar, accumulate, alGet, alSet, alModify, divDense,
      addDense, sWa, cWB, depsPlain, subtractOptimizer]
  · rw [h.2]
    rfl
  · rw [h.2]

/-- C4: a `ReportGradient` call whose reported model version is strictly
below the current version returns `accepted = false` with the current
version, mutates no accumulator state (the state is returned unchanged),
and fires no side effects. -/
theorem stale_report_rejected_no_mutation (d : Deps) (req : GradientRequest)
    (s : MasterState) (h : req.model_version < s.version) :
    ReportGradient d req s = ⟨s, .ok ⟨false, s.version⟩, []⟩ := by
  unfold ReportGradient
  rw [if_neg (by omega), if_neg (by omega)]

theorem stale_report_rejected_no_mutation_witness :
    ReportGradient depsPlain ⟨2, []⟩ sV3 = ⟨sV3, .ok ⟨false, 3⟩, []⟩ :=
  stale_report_rejected_no_mutation depsPlain ⟨2, []⟩ sV3 (by decide)

/-- C10: a `ReportGradient` call whose reported model version is strictly
above the current version does not produce the structured
`accepted = false` rejection: it raises the very same
version-not-available error that `GetModel` raises for that version, with
no state mutation and no side effects. -/
theorem future_version_raises_like_getModel (d : Deps)
    (ckpt : Nat → Option PBModel) (req : GradientRequest)
    (m : GetModelMethod) (s : MasterState)
    (h : s.version < req.model_version) :
    ReportGradient d req s
      = ⟨s, .error (.versionNotAvailable req.model_version s.version), []⟩ ∧
    GetModel ckpt ⟨req.model_version, m⟩ s
      = .error (.versionNotAvailable req.model_version s.version) := by
  constructor
  · unfold ReportGradient
    rw [if_pos h]
  · unfold GetModel
    rw [if_pos h]

theorem future_version_raises_like_getModel_witness :
    ReportGradient depsPlain ⟨5, []⟩ sV3
      = ⟨sV3, .error (.versionNotAvailable 5 3), []⟩ ∧
    GetModel ckptNone ⟨5, .EXACT⟩ sV3
      = .error (.versionNotAvailable 5 3) :=
  future_version_raises_like_getModel depsPlain ckptNone ⟨5, []⟩ .EXACT sV3
    (by decide)

/-- C6: `GetModel` raises version-not-available when the requested version
is ahead of the current one, before any read is attempted (the checkpoint
store is never consulted — the result does not depend on it); for an
exact match of the current version, or `MINIMUM` mode at any validated
version, it returns the live snapshot whose version field is the current
version. -/
theorem getModel_version_gate (ckpt : Nat → Option PBModel)
    (req : GetModelRequest) (s : MasterState) :
    (s.version < req.version →
      GetModel ckpt req s = .error (.versionNotAvailable req.version s.version)) ∧
    (req.version = s.version ∨ (req.method = .MINIMUM ∧ req.version ≤ s.version) →
      GetModel ckpt req s = .ok ⟨s.version, s.model⟩) := by
  constructor
  · intro h
    unfold GetModel
    rw [if_pos h]
  · intro h
    unfold GetModel
    rw [if_neg (by omega), if_pos (by tauto)]
    rfl

theorem getModel_version_gate_witness :
    GetModel ckptNone ⟨4, .EXACT⟩ sV3 = .error (.versionNotAvailable 4 3) ∧
    GetModel ckptNone ⟨3, .EXACT⟩ sV3 = .ok ⟨3, [("w", ⟨[1], [1]⟩)]⟩ ∧
    GetModel ckptNone ⟨1, .MINIMUM⟩ sV3 = .ok ⟨3, [("w", ⟨[1], [1]⟩)]⟩ :=
  ⟨(getModel_version_gate ckptNone ⟨4, .EXACT⟩ sV3).1 (by decide),
   (getModel_version_gate ckptNone ⟨3, .EXACT⟩ sV3).2 (Or.inl rfl),
   (getModel_version_gate ckptNone ⟨1, .MINIMUM⟩ sV3).2
     (Or.inr ⟨rfl, by decide⟩)⟩

/-- C7: a historical read (`EXACT`, requested version strictly below the
current one) whose checkpoint lookup raises does not propagate the
failure: `GetModel` returns the default message — an empty model at
version 0. -/
theorem getModel_checkpoint_fallback_empty (ckpt : Nat → Option PBModel)
    (req : GetModelRequest) (s : MasterState)
    (hm : req.method = .EXACT) (hv : req.version < s.version)
    (hc : ckpt req.version = none) :
    GetModel ckpt req s = .ok ⟨0, []⟩ := by
  unfold GetModel
  rw [if_neg (by omega), if_neg (by simp [hm]; omega), hc]

theorem getModel_checkpoint_fallback_empty_witness :
    GetModel ckptNone ⟨2, .EXACT⟩ sV3 = .ok ⟨0, []⟩ :=
  getModel_checkpoint_fallback_empty ckptNone ⟨2, .EXACT⟩ sV3 rfl (by decide)
    rfl

/-- C9: `ReportVariable` is first-writer-wins: while the model is
non-empty the whole state is returned untouched (variables and version
unchanged); when the model is still empty and the report non-empty, the
model is initialized from the reported name → value map (the version and
all accumulators unchanged). -/
theorem reportVariable_first_writer_wins (req : List (String × TensorPB))
    (s : MasterState) :
    (s.model ≠ [] → ReportVariable req s = (s, .ok ())) ∧
    (s.model = [] → req ≠ [] →
      (ReportVariable req s).1
        = { s with model := (initModelFromTensorDict req []).1 }) := by
  constructor
  · intro h
    unfold ReportVariable
    rw [if_neg (by simpa [List.isEmpty_iff] using h)]
  · intro h hr
    unfold ReportVariable
    rw [if_pos (by simpa [List.isEmpty_iff] using h),
        if_neg (by simpa [List.isEmpty_iff] using hr)]

theorem reportVariable_first_writer_wins_witness :
    ReportVariable [("v", ⟨[1], [7], []⟩)] sV3 = (sV3, .ok ()) ∧
    (ReportVariable [("v", ⟨[1], [7], []⟩)] sEmptyModel).1
      = { sEmptyModel with model := [("v", ⟨[1], [7]⟩)] } :=
  ⟨(reportVariable_first_writer_wins [("v", ⟨[1], [7], []⟩)] sV3).1
     (by simp [sV3]),
   (reportVariable_first_writer_wins [("v", ⟨[1], [7], []⟩)] sEmptyModel).2
     rfl (by simp)⟩

/-- Helper: when some report entry is an unknown dense key and every
in-model entry passes the sanity checks, the classification loop fails
with `unknownVariable` for some key that is indeed absent from the model,
whatever has been classified so far. -/
theorem classify_unknown_dense (model : List (String × DenseTensor)) :
    ∀ (l : List (String × TensorPB)) (acc : Classified),
      (∃ kv ∈ l, alGet model kv.1 = none ∧ kv.2.indices = []) →
      (∀ kv ∈ l, inModelValidB model kv.1 kv.2 = true) →
      ∃ k2, classifyGradients model l acc = .error (.unknownVariable k2) ∧
        alGet model k2 = none := by
  intro l
  induction l with
  | nil =>
    intro acc hbad _
    simp at hbad
  | cons hd tl ih =>
    intro acc hbad hval
    obtain ⟨k, t⟩ := hd
    have hval2 : ∀ kv ∈ tl, inModelValidB model kv.1 kv.2 = true :=
      fun kv hm => hval kv (List.mem_cons_of_mem _ hm)
    cases hmv : alGet model k with
    | none =>
      by_cases hi : t.indices = []
      · exact ⟨k, by simp [classifyGradients, hmv, hi], hmv⟩
      · have hbad2 : ∃ kv ∈ tl, alGet model kv.1 = none ∧ kv.2.indices = [] := by
          obtain ⟨kv, hkv, h1, h2⟩ := hbad
          rcases List.mem_cons.mp hkv with he | hm
          · rw [he] at h2
            exact absurd h2 hi
          · exact ⟨kv, hm, h1, h2⟩
        obtain ⟨k2, hcl, hk2⟩ :=
          ih { acc with edl := alSet acc.edl k ⟨t.indices, ⟨t.dims, t.content⟩⟩ }
            hbad2 hval2
        exact ⟨k2, by simp [classifyGradients, hmv, hi, hcl], hk2⟩
    | some mv =>
      have hbad2 : ∃ kv ∈ tl, alGet model kv.1 = none ∧ kv.2.indices = [] := by
        obtain ⟨kv, hkv, h1, h2⟩ := hbad
        rcases List.mem_cons.mp hkv with he | hm
        · rw [he] at h1
          simp [hmv] at h1
        · exact ⟨kv, hm, h1, h2⟩
      have hvh := hval (k, t) (List.mem_cons_self _ _)
      rw [inModelValidB, hmv] at hvh
      cases ht : tensor_to_ndarray t with
      | slices sl =>
        rw [ht] at hvh
        simp only [Bool.and_eq_true, decide_eq_true_eq] at hvh
        obtain ⟨k2, hcl, hk2⟩ :=
          ih { acc with indexed := alSet acc.indexed k sl } hbad2 hval2
        refine ⟨k2, ?_, hk2⟩
        simp [classifyGradients, hmv, ht, hvh.1, Nat.not_le.mpr hvh.2, hcl]
      | dense a =>
        rw [ht] at hvh
        simp only [decide_eq_true_eq] at hvh
        obtain ⟨k2, hcl, hk2⟩ :=
          ih { acc with tmp := alSet acc.tmp k a } hbad2 hval2
        refine ⟨k2, ?_, hk2⟩
        simp [classifyGradients, hmv, ht, hvh, hcl]

/-- C5: a `ReportGradient` call (at the current version) whose report
contains a key absent from the model with a dense (index-free) value, all
in-model entries passing the sanity checks, fails with `unknownVariable`
for a key genuinely absent from the model, and the servicer state is
returned exactly unchanged — no partial accumulation of the report's
other keys, and no side effects. -/
theorem unknown_dense_key_rejected_atomically (d : Deps)
    (req : GradientRequest) (s : MasterState)
    (hv : req.model_version = s.version)
    (hbad : ∃ kv ∈ req.gradient, alGet s.model kv.1 = none ∧ kv.2.indices = [])
    (hval : ∀ kv ∈ req.gradient, inModelValidB s.model kv.1 kv.2 = true) :
    ∃ k2, ReportGradient d req s = ⟨s, .error (.unknownVariable k2), []⟩ ∧
      alGet s.model k2 = none := by
  obtain ⟨k2, hcl, hk2⟩ :=
    classify_unknown_dense s.model req.gradient ⟨[], [], []⟩ hbad hval
  refine ⟨k2, ?_, hk2⟩
  unfold ReportGradient
  rw [if_neg (by omega), if_pos hv, hcl]

theorem unknown_dense_key_rejected_atomically_witness :
    0 < 3 ∧
    ∃ k2, ReportGradient depsPlain ⟨0, [("w", ⟨[2], [9, 9], []⟩),
        ("bogus", ⟨[2], [9, 9], []⟩)]⟩ sW
      = ⟨sW, .error (.unknownVariable k2), []⟩ ∧ alGet sW.model k2 = none :=
  ⟨by decide,
   unknown_dense_key_rejected_atomically depsPlain
     ⟨0, [("w", ⟨[2], [9, 9], []⟩), ("bogus", ⟨[2], [9, 9], []⟩)]⟩ sW rfl
     (by decide) (by decide)⟩

/-- C1 (counterexample): in the missing-embedding-key scenario the tipping
call does fail with `missingEmbeddingKeys`, but the dense accumulator map
is NOT left as it was immediately before the update attempt: the
accumulated dense sum was `[4.0]` and after the failed update it is
`[2.0]` — `_update_model` divides the dense sums in place by the quorum
threshold before the embedding lookup raises. -/
theorem missing_keys_divides_dense_cex :
    classifyGradients sEdlA.model reqEdlB.gradient ⟨[], [], []⟩ = .ok cEdlB ∧
    (bumpCount (accumulate sEdlA cEdlB)).gradient_sum
      = [("w", ⟨[1], [4]⟩)] ∧
    (ReportGradient depsPlain reqEdlB sEdlA).outcome
      = .error (.missingEmbeddingKeys 1 "e-0") ∧
    (ReportGradient depsPlain reqEdlB sEdlA).state.gradient_sum
      = [("w", ⟨[1], [2]⟩)] ∧
    [("w", (⟨[1], [2]⟩ : DenseTensor))] ≠ [("w", ⟨[1], [4]⟩)] := by
  refine ⟨?_, ?_, ?_, ?_, ?_⟩
  · norm_num +decide [classifyGradients, alGet, alSet, tensor_to_ndarray, sEdlA,
      reqEdlB, cEdlB, DenseTensor.dim0, DenseTensor.dim1, maxIdx]
  · norm_num +decide [bumpCount, accumulate, alGet, alSet, addDense, sEdlA, cEdlB]
  · norm_num +decide [ReportGradient, classifyGradients, accumulate, alGet, alSet,
      tensor_to_ndarray, update_model, gradVarOf, processEdl, uniqueIdx,
      uniqueList, embeddingKey, gwEmpty, sEdlA, reqEdlB, depsPlain,
      DenseTensor.dim0, DenseTensor.dim1, maxIdx, addDense,
      merge_indexed_slices]
  · norm_num +decide [ReportGradient, classifyGradients, accumulate, alGet, alSet,
      tensor_to_ndarray, update_model, gradVarOf, processEdl, uniqueIdx,
      uniqueList, embeddingKey, gwEmpty, sEdlA, reqEdlB, depsPlain,
      DenseTensor.dim0, DenseTensor.dim1, maxIdx, addDense, divDense,
      merge_indexed_slices]
  · norm_num

/-- C1 (amended): if the quorum-tipping update attempt fails because the
external embedding lookup reports missing keys, the call fails with a
`missingEmbeddingKeys` error naming a genuinely missing key and a positive
count, and the contribution counter and the indexed and
external-embedding accumulator maps are left exactly as they were
immediately before the update attempt — but the dense accumulator map is
not: every dense sum has been divided in place by the quorum threshold. -/
theorem missing_keys_abort_state (d : Deps) (req : GradientRequest)
    (s : MasterState) (c : Classified) (n : Nat) (k : String)
    (hv : req.model_version = s.version)
    (hc : classifyGradients s.model req.gradient ⟨[], [], []⟩ = .ok c)
    (hq : s.grad_to_wait ≤ s.grad_n + 1)
    (he : processEdl d.gw (accumulate s c).edl_embedding_gradients
          = .error (.missingEmbeddingKeys n k)) :
    ReportGradient d req s =
      ⟨{ bumpCount (accumulate s c) with
          gradient_sum := (accumulate s c).gradient_sum.map
            (fun kv => (kv.1, divDense kv.2 s.grad_to_wait)) },
        .error (.missingEmbeddingKeys n k), []⟩ ∧
    d.gw k = none ∧ 0 < n := by
  refine ⟨?_, processEdl_missing d.gw _ n k he⟩
  rw [reportGradient_tipping d req s c hv hc hq]
  rw [update_model_missing d.opt d.gw (bumpCount (accumulate s c)) n k he]
  rfl

theorem missing_keys_abort_state_witness :
    ReportGradient depsPlain reqEdlB sEdlA =
      ⟨⟨[("w", ⟨[1], [10]⟩)], 0, [("w", ⟨[1], [2]⟩)], [],
        [("e", ⟨[0], ⟨[1, 1], [5]⟩⟩)], 2, 2⟩,
       .error (.missingEmbeddingKeys 1 "e-0"), []⟩ ∧
    gwEmpty "e-0" = none ∧ (0 : Nat) < 1 := by
  have h := missing_keys_abort_state depsPlain reqEdlB sEdlA cEdlB 1 "e-0" rfl
    (by norm_num +decide [classifyGradients, alGet, alSet, tensor_to_ndarray, sEdlA,
      reqEdlB, cEdlB, DenseTensor.dim0, DenseTensor.dim1, maxIdx])
    (by decide)
    (by norm_num +decide [processEdl, accumulate, alGet, alSet, uniqueIdx,
      uniqueList, embeddingKey, gwEmpty, sEdlA, cEdlB])
  refine ⟨?_, h.2.1, h.2.2⟩
  rw [h.1]
  norm_num +decide [bumpCount, accumulate, alGet, alSet, addDense, divDense,
    merge_indexed_slices, sEdlA, cEdlB, depsPlain]

/-- C3 (counterexample): in the duplicate-sparse-index scenario the report
is classified into the indexed bucket with its duplicate indices intact,
and at update time the gradient handed to the optimizer for the in-model
key `emb` is exactly those raw slices (indices `[2, 2, 5]`, values
`[1, 1, 2]`) — not the unique-index, summed-value reduction (indices
`[2, 5]`, values `[2, 2]`): no reduction happens before the optimizer
invocation for indexed-bucket entries. -/
theorem indexed_handed_raw_cex :
    classifyGradients sEmb.model reqEmb.gradient ⟨[], [], []⟩ = .ok cEmb ∧
    bumpCount (accumulate sEmb cEmb) = sEmb2 ∧
    gradVarOf gwEmpty sEmb2
      = .ok ([(Grad.slices rawEmb, VarTarget.modelKey "emb")], []) ∧
    rawEmb ≠ reducedEmb := by
  refine ⟨?_, ?_, ?_, ?_⟩
  · norm_num +decide [classifyGradients, alGet, alSet, tensor_to_ndarray, sEmb,
      reqEmb, cEmb, DenseTensor.dim0, DenseTensor.dim1, maxIdx]
  · norm_num +decide [bumpCount, accumulate, alGet, alSet, sEmb, cEmb, sEmb2]
  · norm_num +decide [gradVarOf, processEdl, sEmb2, rawEmb]
  · decide

/-- C3 (amended): every indexed-bucket entry is handed to the optimizer
exactly as accumulated — duplicate indices and their per-occurrence values
intact, with no unique-index reduction before the optimizer invocation
(the gradient/variable list pairs each raw slice with its model
variable); the duplicate-index summation instead happens inside the
optimizer's scatter-style application, so in the duplicate-index scenario
the applied update equals that of the unique-index, summed-value
reduction (indices `[2, 5]`, values `[2, 2]`). -/
theorem indexed_raw_slices_equiv (gw : String → Option (List ℚ))
    (s : MasterState) (pr : List (List Nat) × List (Grad × DenseTensor))
    (he : processEdl gw s.edl_embedding_gradients = .ok pr) :
    gradVarOf gw s = .ok (
      (s.gradient_sum.map
        (fun kv => (Grad.dense (divDense kv.2 s.grad_to_wait),
                    VarTarget.modelKey kv.1)))
      ++ (s.gradient_sum_indexed.map
           (fun kv => (Grad.slices kv.2, VarTarget.modelKey kv.1)))
      ++ pr.2.map (fun q => (q.1, VarTarget.temp q.2)), pr.1) ∧
    (ReportGradient depsPlain reqEmb sEmb).state.model
      = [("emb", ⟨[6, 1], [10, 10, 8, 10, 10, 8]⟩)] ∧
    (applyGradVar subtractOptimizer
        [(Grad.slices reducedEmb, VarTarget.modelKey "emb")] sEmb.model []).1
      = [("emb", ⟨[6, 1], [10, 10, 8, 10, 10, 8]⟩)] := by
  refine ⟨?_, ?_, ?_⟩
  · unfold gradVarOf
    rw [he]
  · norm_num +decide [ReportGradient, classifyGradients, accumulate, alGet, alSet,
      alModify, tensor_to_ndarray, update_model, gradVarOf, processEdl,
      applyGradVar, upsertsOf, update_evaluation, update_checkpoint,
      subtractOptimizer, updateRowSub, rowsOf, chunksOf, divDense, sEmb, reqEmb,
      depsPlain, DenseTensor.dim0, DenseTensor.dim1, maxIdx]
  · norm_num +decide [applyGradVar, alModify, subtractOptimizer, updateRowSub, rowsOf, chunksOf,
      reducedEmb, sEmb, DenseTensor.dim0, DenseTensor.dim1]

theorem indexed_raw_slices_equiv_witness :
    gradVarOf gwEmpty sEmb2
      = .ok ([(Grad.slices ⟨[2, 2, 5], ⟨[3, 1], [1, 1, 2]⟩⟩,
               VarTarget.modelKey "emb")], []) ∧
    (ReportGradient depsPlain reqEmb sEmb).state.model
      = [("emb", ⟨[6, 1], [10, 10, 8, 10, 10, 8]⟩)] := by
  have h := indexed_raw_slices_equiv gwEmpty sEmb2 ([], [])
    (by norm_num +decide [processEdl, sEmb2])
  refine ⟨?_, h.2.1⟩
  have h1 := h.1
  simpa [sEmb2, divDense] using h1

/-- C8 (counterexample): after a successful quorum-tipping update, an
exception raised by the evaluation-scheduling hook is NOT caught — the
`ReportGradient` call fails with it (even though the update itself is
already committed: the version was incremented and the counter reset). -/
theorem eval_hook_exception_escapes_cex :
    (ReportGradient depsEvalRaises reqWB sWa).outcome
      = .error .evalHookException ∧
    (ReportGradient depsEvalRaises reqWB sWa).state.version = 1 ∧
    (ReportGradient depsEvalRaises reqWB sWa).state.grad_n = 0 := by
  refine ⟨?_, ?_, ?_⟩ <;>
    norm_num +decide [ReportGradient, classifyGradients, accumulate, alGet, alSet,
      alModify, tensor_to_ndarray, update_model, gradVarOf, processEdl,
      applyGradVar, upsertsOf, update_evaluation, update_checkpoint,
      subtractOptimizer, divDense, addDense, sWa, reqWB, depsEvalRaises,
      DenseTensor.dim0, DenseTensor.dim1, maxIdx]

/-- Helper: whenever `_update_model` returns successfully (whatever the mix
of dense, indexed and external-embedding accumulation), the update is
committed: the version has been incremented and the contribution counter
and all three accumulator maps cleared. -/
theorem update_model_ok (opt : Grad → DenseTensor → DenseTensor)
    (gw : String → Option (List ℚ)) (s s3 : MasterState) (ev : List Event)
    (h : update_model opt gw s = (s3, .ok ev)) :
    s3.version = s.version + 1 ∧ s3.grad_n = 0 ∧ s3.gradient_sum = [] ∧
    s3.gradient_sum_indexed = [] ∧ s3.edl_embedding_gradients = [] := by
  unfold update_model at h
  split at h
  · exfalso
    have h2 := congrArg Prod.snd h
    exact Except.noConfusion h2
  · have h1 := congrArg Prod.fst h
    dsimp at h1
    rw [← h1]
    exact ⟨rfl, rfl, rfl, rfl, rfl⟩

/-- C8 (amended): after every successful model update inside a
quorum-tipping `ReportGradient` call — whatever mix of dense, indexed and
external-embedding gradients the round accumulated — the
evaluation-scheduling hook runs first and the checkpoint-due check second,
both before the call returns (i.e. before the lock is released); a failure
of the checkpoint save is caught and does not fail the call (the outcome
is still `accepted = true` whatever `saveRaises` is), but an exception
raised by the evaluation-scheduling hook propagates to the caller — the
update itself being already committed (version incremented, counter
reset). -/
theorem hooks_order_eval_escapes (d : Deps) (req : GradientRequest)
    (s : MasterState) (c : Classified) (s3 : MasterState) (ev0 : List Event)
    (hv : req.model_version = s.version)
    (hc : classifyGradients s.model req.gradient ⟨[], [], []⟩ = .ok c)
    (hq : s.grad_to_wait ≤ s.grad_n + 1)
    (hu : update_model d.opt d.gw (bumpCount (accumulate s c)) = (s3, .ok ev0))
    (hep : d.evalPresent = true) (hcp : d.ckptPresent = true) :
    (d.evalRaises = false →
      (ReportGradient d req s).outcome = .ok ⟨true, s.version + 1⟩ ∧
      (ReportGradient d req s).events
        = ev0 ++ Event.evalHook :: Event.ckptCheck ::
          (if d.needCkpt (s.version + 1) then
            [Event.ckptSave (s.version + 1) (!d.saveRaises)] else [])) ∧
    (d.evalRaises = true →
      (ReportGradient d req s).outcome = .error .evalHookException ∧
      (ReportGradient d req s).events = ev0 ++ [Event.evalHook] ∧
      (ReportGradient d req s).state.version = s.version + 1 ∧
      (ReportGradient d req s).state.grad_n = 0) := by
  have hcommit := update_model_ok d.opt d.gw (bumpCount (accumulate s c)) s3 ev0 hu
  have hver : s3.version = s.version + 1 := hcommit.1
  have hgn : s3.grad_n = 0 := hcommit.2.1
  rw [reportGradient_tipping d req s c hv hc hq, hu]
  constructor
  · intro hr
    simp [update_evaluation, update_checkpoint, hep, hcp, hr, hver]
  · intro hr
    simp [update_evaluation, hep, hr, hver, hgn]

theorem hooks_order_eval_escapes_witness :
    (ReportGradient depsEvalOk reqWB sWa).outcome = .ok ⟨true, 1⟩ ∧
    (ReportGradient depsEvalOk reqWB sWa).events
      = [Event.evalHook, Event.ckptCheck, Event.ckptSave 1 false] ∧
    (ReportGradient depsEvalRaises reqWB sWa).outcome
      = .error .evalHookException ∧
    (ReportGradient depsEvalRaises reqWB sWa).state.version = 1 := by
  have hu1 : update_model depsEvalOk.opt depsEvalOk.gw
      (bumpCount (accumulate sWa cWB))
      = (⟨[("w", ⟨[2], [4/5, 4/5]⟩)], 1, [], [], [], 0, 2⟩, .ok []) := by
    norm_num +decide [update_model, gradVarOf, processEdl, applyGradVar,
      upsertsOf, bumpCount, accumulate, alGet, alSet, alModify, divDense,
      addDense, subtractOptimizer, updateRowSub, rowsOf, chunksOf, sWa, cWB,
      depsEvalOk, gwEmpty, DenseTensor.dim0, DenseTensor.dim1]
  have hu2 : update_model depsEvalRaises.opt depsEvalRaises.gw
      (bumpCount (accumulate sWa cWB))
      = (⟨[("w", ⟨[2], [4/5, 4/5]⟩)], 1, [], [], [], 0, 2⟩, .ok []) := by
    norm_num +decide [update_model, gradVarOf, processEdl, applyGradVar,
      upsertsOf, bumpCount, accumulate, alGet, alSet, alModify, divDense,
      addDense, subtractOptimizer, updateRowSub, rowsOf, chunksOf, sWa, cWB,
      depsEvalRaises, gwEmpty, DenseTensor.dim0, DenseTensor.dim1]
  have hOk := hooks_order_eval_escapes depsEvalOk reqWB sWa cWB _ [] rfl
    (by norm_num +decide [classifyGradients, alGet, alSet, tensor_to_ndarray,
      sWa, reqWB, cWB, DenseTensor.dim0, DenseTensor.dim1, maxIdx])
    (by decide) hu1 rfl rfl
  have hBad := hooks_order_eval_escapes depsEvalRaises reqWB sWa cWB _ [] rfl
    (by norm_num +decide [classifyGradients, alGet, alSet, tensor_to_ndarray,
      sWa, reqWB, cWB, DenseTensor.dim0, DenseTensor.dim1, maxIdx])
    (by decide) hu2 rfl rfl
  refine ⟨(hOk.1 rfl).1, ?_, (hBad.2 rfl).1, (hBad.2 rfl).2.2.1⟩
  have he := (hOk.1 rfl).2
  simpa [depsEvalOk] using he

end ElasticDL
